import Mathlib

/-!
Shallow embedding of `package_diff` (src/src/main.rs), a one-shot Sui GraphQL
package-query client, together with theorems checking the repository's
specification claims against it.

The program's only effects are `println!` calls, one `std::fs::write` of
`response.json`, and the process exit.  We model a run as the ordered list of
printed lines (one `Line` constructor per `println!` site), the optional file
write, and a result: `ok` (the function returned `Ok(())`), `err` (a `?`
propagated an error to `main`), or `panic` (a byte-slice `&s[..k]` hit a
non-boundary offset and aborted the process).

Rust strings are UTF-8; `String::len` is the byte length and `&s[..k]` slices
`k` bytes, panicking unless `k` is a character boundary.  We model a Rust
string as a Lean `String` (a list of characters) and compute byte counts with
`Char.utf8Size`.

The HTTP layer (reqwest) is abstracted as an `HttpOutcome`: either the send
fails, or a response arrives carrying a status code, the body as text (used on
the non-success path; `none` models a failed body read) and the body parsed as
JSON (used on the success path; `none` models a read/parse failure).  The
wall-clock timestamp `chrono::Utc::now().to_rfc3339()` is abstracted as the
`now : String` parameter.
-/

set_option autoImplicit false
set_option maxRecDepth 4000

namespace PackageDiff

/-- JSON values, as in `serde_json::Value`.  Numbers are modelled as integers
(the program only ever decodes `u64` fields, which fail on non-integral
numbers anyway); objects are association lists with the first binding of a key
the visible one, matching map lookup. -/
inductive Json where
  | null
  | bool (b : Bool)
  | num (n : Int)
  | str (s : String)
  | arr (elems : List Json)
  | obj (fields : List (String × Json))

/-- `Value::get(key)`: on an object, look the key up; on anything else `None`
(main.rs line 106 uses this as `data.get("package")`). -/
def Json.get? : Json → String → Option Json
  | .obj kvs, k => (kvs.find? (fun p => p.1 == k)).map (fun p => p.2)
  | _, _ => none

/-- `Value::is_null()` (main.rs line 107). -/
def Json.isNull : Json → Bool
  | .null => true
  | _ => false

/-! ### Rust UTF-8 byte semantics -/

/-- The number of UTF-8 bytes of a character list. -/
def utf8LenL : List Char → Nat
  | [] => 0
  | c :: cs => c.utf8Size + utf8LenL cs

/-- `String::len` on a Rust string: the number of UTF-8 bytes. -/
def utf8Len (s : String) : Nat :=
  utf8LenL s.data

/-- The Rust byte slice `&s[..k]` on the character list of `s`: `some` of the
characters making up the first `k` bytes when `k` lands on a character
boundary, `none` (a Rust panic) when it falls inside a multi-byte character or
past the end. -/
def byteTake : List Char → Nat → Option (List Char)
  | _, 0 => some []
  | [], _ + 1 => none
  | c :: cs, n + 1 =>
    if c.utf8Size ≤ n + 1 then
      (byteTake cs (n + 1 - c.utf8Size)).map (fun l => c :: l)
    else
      none

/-! ### Typed response structures (serde derives in main.rs lines 6-44) -/

structure GraphQLRequest where
  query : String
  «variables» : List (String × Json)

structure GraphQLError where
  message : String

structure GraphQLResponse where
  data : Option Json
  errors : Option (List GraphQLError)

structure PackageVersionNode where
  address : String
  version : Nat
  package_bcs : Option String
  module_bcs : Option (List String)

structure PackageVersions where
  nodes : List PackageVersionNode

structure PackageData where
  address : String
  version : Nat
  package_versions : Option PackageVersions

/-! ### serde_json decoding of the derived `Deserialize` impls

The GraphQL endpoint returns JSON objects, so the struct decoders are modelled
on object input (serde's positional array form of struct deserialization is
never exercised by this program).  A missing field of type `Option<T>` and a
`null` field both decode to `None`; required fields fail when missing or
mistyped; unknown fields are ignored (no `deny_unknown_fields`). -/

def decodeString : Json → Option String
  | .str s => some s
  | _ => none

/-- Decoding a `u64`: an integral JSON number in `[0, 2^64)`. -/
def decodeU64 : Json → Option Nat
  | .num n => if 0 ≤ n ∧ n < 18446744073709551616 then some n.toNat else none
  | _ => none

/-- Decode an `Option<T>` struct field: absent or `null` gives `None`,
otherwise the inner decoder must succeed. -/
def decodeOptField {α : Type} (j : Json) (k : String) (dec : Json → Option α) :
    Option (Option α) :=
  match j.get? k with
  | none => some none
  | some .null => some none
  | some v => (dec v).map some

def decodeGraphQLError (j : Json) : Option GraphQLError :=
  match j with
  | .obj _ =>
    match j.get? "message" with
    | some (.str s) => some ⟨s⟩
    | _ => none
  | _ => none

def decodeErrorList (j : Json) : Option (List GraphQLError) :=
  match j with
  | .arr xs => xs.mapM decodeGraphQLError
  | _ => none

/-- serde decode of `GraphQLResponse { data: Option<Value>, errors:
Option<Vec<GraphQLError>> }` from a JSON value. -/
def decodeGraphQLResponse (j : Json) : Option GraphQLResponse :=
  match j with
  | .obj _ => do
    let d ← decodeOptField j "data" some
    let e ← decodeOptField j "errors" decodeErrorList
    pure ⟨d, e⟩
  | _ => none

def decodeStringList (j : Json) : Option (List String)
  := match j with
  | .arr xs => xs.mapM decodeString
  | _ => none

def decodePackageVersionNode (j : Json) : Option PackageVersionNode :=
  match j with
  | .obj _ => do
    let a ← j.get? "address" >>= decodeString
    let v ← j.get? "version" >>= decodeU64
    let pb ← decodeOptField j "packageBcs" decodeString
    let mb ← decodeOptField j "moduleBcs" decodeStringList
    pure ⟨a, v, pb, mb⟩
  | _ => none

def decodePackageVersions (j : Json) : Option PackageVersions :=
  match j with
  | .obj _ => do
    let ns ← j.get? "nodes" >>= fun v =>
      match v with
      | .arr xs => xs.mapM decodePackageVersionNode
      | _ => none
    pure ⟨ns⟩
  | _ => none

/-- `serde_json::from_value::<PackageData>` (main.rs line 125). -/
def decodePackageData (j : Json) : Option PackageData :=
  match j with
  | .obj _ => do
    let a ← j.get? "address" >>= decodeString
    let v ← j.get? "version" >>= decodeU64
    let pv ← decodeOptField j "packageVersions" decodePackageVersions
    pure ⟨a, v, pv⟩
  | _ => none

/-! ### Observable output

One constructor per `println!` site in main.rs.  Payload-free constructors
stand for lines whose textual payload (a serde error message or a
pretty-printed JSON dump) does not affect any claim. -/

inductive Line where
  | querying                              -- "Querying Sui Package..." (main, 186)
  | httpError (status : Nat)              -- "HTTP Error: {}" (86)
  | errorResponse (text : String)         -- "Error response: {}" (88)
  | graphqlErrorsHeader                   -- "GraphQL Errors:" (97)
  | graphqlErrorMsg (msg : String)        -- "  - {}" (99)
  | packageNotFound (addr : String)       -- "Package not found at address: {}" (108)
  | packageInfoHeader                     -- "=== Package Information ===" (127)
  | packageAddress (a : String)           -- "Address: {}" (128)
  | currentVersion (v : Nat)              -- "Current Version: {}" (129)
  | versionsHeader (n : Nat)              -- "=== Package Versions ({} found) ===" (132)
  | versionSeparator (i : Nat)            -- "--- Version {} ---" (135)
  | nodeAddress (a : String)              -- "  Address: {}" (136)
  | nodeVersion (v : Nat)                 -- "  Version Number: {}" (137)
  | bcsLength (n : Nat)                   -- "  Package BCS Length: {} characters" (140)
  | bcsPreview (p : String)               -- "  Package BCS Preview: {}..." (143)
  | bcsFull (s : String)                  -- "  Package BCS: {}" (145)
  | bcsNone                               -- "  Package BCS: None" (148)
  | moduleCount (n : Nat)                 -- "  Number of Modules: {}" (152)
  | moduleLength (j n : Nat)              -- "    Module {}: {} characters" (154)
  | modulePreview (p : String)            -- "      Preview: {}..." (157)
  | moduleBcsNone                         -- "  Module BCS: None" (161)
  | noVersionsFound                       -- "No package versions found" (165)
  | parseFailedMsg                        -- "Failed to parse package data: {}" (169)
  | rawDataDump                           -- "Raw data: {}" (170)
  | noPackageDataMsg                      -- "No package data in response" (174)
  | fullResponseDump                      -- "Full response: {}" (175)
  | noDataMsg                             -- "No data in response" (178)
  | queryCompleted                        -- "\nQuery completed successfully!" (192)
  | errorOccurred                         -- "Error occurred: {}" (193)
  deriving DecidableEq, Repr

/-- How a run of `query_sui_package` ends: `Ok(())`, a `?`-propagated `Err`,
or a process-aborting panic from a byte slice off a character boundary. -/
inductive RunResult where
  | ok
  | err
  | panic
  deriving DecidableEq, Repr

/-- A run: printed lines in order, the `response.json` content if written, and
how the call ended. -/
structure Run where
  lines : List Line
  written : Option Json
  result : RunResult

/-! ### The report printer (main.rs lines 127-166) -/

/-- Lines 139-149: print the package-BCS length and either the full string
(byte length ≤ 100) or the first-100-bytes preview; the slice `&s[..100]`
panics when byte 100 is not a character boundary, after the length line has
already been printed.  Returns the lines printed and a panic flag. -/
def processBcs : Option String → List Line × Bool
  | none => ([.bcsNone], false)
  | some s =>
    if utf8Len s > 100 then
      match byteTake s.data 100 with
      | some p => ([.bcsLength (utf8Len s), .bcsPreview (String.mk p)], false)
      | none => ([.bcsLength (utf8Len s)], true)
    else
      ([.bcsLength (utf8Len s), .bcsFull s], false)

/-- Lines 153-159: for each module string print its byte length, and only when
that length exceeds 50 also a first-50-bytes preview (panicking when byte 50
is not a character boundary).  `j` is the 1-based display index. -/
def processModuleList : Nat → List String → List Line × Bool
  | _, [] => ([], false)
  | j, m :: ms =>
    if utf8Len m > 50 then
      match byteTake m.data 50 with
      | some p =>
        let rest := processModuleList (j + 1) ms
        (.moduleLength j (utf8Len m) :: .modulePreview (String.mk p) :: rest.1, rest.2)
      | none => ([.moduleLength j (utf8Len m)], true)
    else
      let rest := processModuleList (j + 1) ms
      (.moduleLength j (utf8Len m) :: rest.1, rest.2)

/-- Lines 151-162: the module block of one version node. -/
def processModules : Option (List String) → List Line × Bool
  | none => ([.moduleBcsNone], false)
  | some ms =>
    let rest := processModuleList 1 ms
    (.moduleCount ms.length :: rest.1, rest.2)

/-- Lines 134-163: one version node (`i` is the 1-based display index). -/
def processNode (i : Nat) (v : PackageVersionNode) : List Line × Bool :=
  let hd : List Line := [.versionSeparator i, .nodeAddress v.address, .nodeVersion v.version]
  let bcs := processBcs v.package_bcs
  if bcs.2 then
    (hd ++ bcs.1, true)
  else
    let ms := processModules v.module_bcs
    (hd ++ bcs.1 ++ ms.1, ms.2)

/-- The `for (i, version) in nodes.iter().enumerate()` loop: a panic aborts the
remaining iterations. -/
def processNodes : Nat → List PackageVersionNode → List Line × Bool
  | _, [] => ([], false)
  | i, v :: vs =>
    let this := processNode i v
    if this.2 then
      (this.1, true)
    else
      let rest := processNodes (i + 1) vs
      (this.1 ++ rest.1, rest.2)

/-- Lines 127-166: the full report for a successfully decoded package.  The
version-list header is printed whenever `packageVersions` decoded to `Some`,
including with an empty `nodes` list; "No package versions found" is printed
exactly when it decoded to `None`. -/
def printPackage (p : PackageData) : List Line × Bool :=
  let hd : List Line := [.packageInfoHeader, .packageAddress p.address, .currentVersion p.version]
  match p.package_versions with
  | some vs =>
    let body := processNodes 1 vs.nodes
    (hd ++ .versionsHeader vs.nodes.length :: body.1, body.2)
  | none => (hd ++ [.noVersionsFound], false)

/-! ### The envelope written to response.json (main.rs lines 112-122) -/

def endpointUrl : String := "https://sui-mainnet.mystenlabs.com/graphql"

/-- The `json!` envelope whose pretty-printing is written to `response.json`;
`now` stands for `chrono::Utc::now().to_rfc3339()`. -/
def responseEnvelope (package_address now : String) (data : Json) : Json :=
  .obj
    [("status", .str "success"),
     ("query", .obj
        [("package_address", .str package_address),
         ("timestamp", .str now),
         ("endpoint", .str endpointUrl)]),
     ("data", data)]

/-! ### The data-handling branches (main.rs lines 96-181) -/

/-- Lines 105-179: branch on `data.get("package")`, null check, file write,
typed decode, report. -/
def handleData (package_address now : String) (data : Json) : Run :=
  match data.get? "package" with
  | none => ⟨[.noPackageDataMsg, .fullResponseDump], none, .ok⟩
  | some package_data =>
    if package_data.isNull then
      ⟨[.packageNotFound package_address], none, .ok⟩
    else
      let env := responseEnvelope package_address now data
      match decodePackageData package_data with
      | some p =>
        let rep := printPackage p
        ⟨rep.1, some env, if rep.2 then .panic else .ok⟩
      | none => ⟨[.parseFailedMsg, .rawDataDump], some env, .ok⟩

/-- Lines 96-181: branch on the decoded envelope.  Note that `if let
Some(errors)` fires even when the error list is empty, so an empty `errors`
array still short-circuits the data processing. -/
def handleEnvelope (package_address now : String) (g : GraphQLResponse) : Run :=
  match g.errors with
  | some errs =>
    ⟨.graphqlErrorsHeader :: errs.map (fun e => .graphqlErrorMsg e.message), none, .ok⟩
  | none =>
    match g.data with
    | some d => handleData package_address now d
    | none => ⟨[.noDataMsg], none, .ok⟩

/-! ### The HTTP layer -/

/-- `StatusCode::is_success()`: 2xx. -/
def statusIsSuccess (status : Nat) : Bool :=
  decide (200 ≤ status ∧ status ≤ 299)

/-- An arrived HTTP response: status code, body as text (`none`: the
`text()` read fails) and body parsed as the JSON envelope (`none`: the
`json()` read or deserialization fails). -/
structure HttpResponse where
  status : Nat
  text : Option String
  body : Option Json

/-- The network interaction: the send itself may fail. -/
inductive HttpOutcome where
  | sendFailure
  | response (r : HttpResponse)

/-- The whole of `query_sui_package` (main.rs lines 46-182) after abstracting
the HTTP exchange into `h` and the clock into `now`. -/
def query_sui_package (package_address : String) (h : HttpOutcome) (now : String) : Run :=
  match h with
  | .sendFailure => ⟨[], none, .err⟩
  | .response r =>
    if statusIsSuccess r.status then
      match r.body with
      | none => ⟨[], none, .err⟩
      | some bj =>
        match decodeGraphQLResponse bj with
        | none => ⟨[], none, .err⟩
        | some g => handleEnvelope package_address now g
    else
      match r.text with
      | some t => ⟨[.httpError r.status, .errorResponse t], none, .ok⟩
      | none => ⟨[.httpError r.status], none, .err⟩

/-! ### The request builder (main.rs lines 50-74) -/

/-- The GraphQL document, exactly as in the `r#"..."#` literal at main.rs
lines 50-64 (braces written with escapes). -/
def packageQuery : String :=
  "\n        query PackageQuery($address: SuiAddress!) \x7b\n            package(address: $address) \x7b\n                address\n                version\n                packageVersions(first: 50) \x7b\n                    nodes \x7b\n                        address\n                        version\n                        packageBcs\n                    \x7d\n                \x7d\n            \x7d\n        \x7d\n    "

/-- Lines 66-74: the request is the fixed document plus a one-entry variables
map binding "address" to the input address. -/
def buildRequest (package_address : String) : GraphQLRequest :=
  ⟨packageQuery, [("address", .str package_address)]⟩

/-- Naive substring test on the underlying character lists. -/
def isSubstr (p s : String) : Bool :=
  go p.data s.data
where
  go (p : List Char) : List Char → Bool
    | [] => p.isEmpty
    | c :: cs => p.isPrefixOf (c :: cs) || go p cs

/-! ### main (main.rs lines 184-197) -/

/-- The hardcoded package address (main.rs line 189). -/
def theAddress : String :=
  "0xc33c3e937e5aa2009cc0c3fdb3f345a0c3193d4ee663ffc601fe8b894fbc4ba6"

/-- Lines 191-196: main prints a banner, runs the query, matches `Ok`/`Err`
with a final diagnostic line, and returns `Ok(())` in both cases.  A panic
inside the query propagates and aborts the process instead. -/
def mainWrap (r : Run) : Run :=
  match r.result with
  | .ok => ⟨.querying :: r.lines ++ [.queryCompleted], r.written, .ok⟩
  | .err => ⟨.querying :: r.lines ++ [.errorOccurred], r.written, .ok⟩
  | .panic => ⟨.querying :: r.lines, r.written, .panic⟩

def mainRun (h : HttpOutcome) (now : String) : Run :=
  mainWrap (query_sui_package theAddress h now)

/-- The process exit status: `main` returning `Ok(())` exits 0; a panic aborts
with the Rust panic exit status 101. -/
def exitCode (r : Run) : Nat :=
  match r.result with
  | .panic => 101
  | _ => 0

/-! ### Concrete inputs used by the counterexamples and witnesses -/

/-- 51 euro signs: 51 characters, 153 UTF-8 bytes; byte offset 100 falls
inside the 34th character. -/
def euro51 : String := String.mk (List.replicate 51 '€')

/-- 34 euro signs: 102 UTF-8 bytes; byte offset 100 falls inside the 34th
character. -/
def euro34 : String := String.mk (List.replicate 34 '€')

/-- A version node whose package-BCS string triggers the slicing panic. -/
def badNode : Json :=
  .obj [("address", .str "0xabc"), ("version", .num 1), ("packageBcs", .str euro51)]

/-- A well-formed response body whose report panics while printing. -/
def panicBody : Json :=
  .obj [("data", .obj
    [("package", .obj
      [("address", .str "0xabc"), ("version", .num 1),
       ("packageVersions", .obj [("nodes", .arr [badNode])])])])]

/-- The `data` object of `c1Body`: it holds a decodable, non-null package. -/
def c1Data : Json :=
  .obj [("package", .obj [("address", .str "0x1"), ("version", .num 1)])]

/-- A response with an empty `errors` array next to perfectly good data. -/
def c1Body : Json :=
  .obj [("errors", .arr []), ("data", c1Data)]

/-- A response whose package decodes with `packageVersions.nodes = []`. -/
def c2Body : Json :=
  .obj [("data", .obj
    [("package", .obj
      [("address", .str "0x1"), ("version", .num 1),
       ("packageVersions", .obj [("nodes", .arr [])])])])]

/-! ### Helper lemmas -/

/-- When `byteTake l n` succeeds it returns a prefix of `l` holding exactly
`n` UTF-8 bytes: `&s[..n]` keeps precisely the first `n` bytes. -/
theorem byteTake_spec (l : List Char) :
    ∀ (n : Nat) (p : List Char), byteTake l n = some p →
      utf8LenL p = n ∧ p <+: l := by
  induction l with
  | nil =>
    intro n p h
    cases n with
    | zero =>
      simp only [byteTake, Option.some.injEq] at h
      subst h
      simp [utf8LenL]
    | succ m => simp [byteTake] at h
  | cons c cs ih =>
    intro n p h
    cases n with
    | zero =>
      simp only [byteTake, Option.some.injEq] at h
      subst h
      simp [utf8LenL]
    | succ m =>
      simp only [byteTake] at h
      by_cases hc : c.utf8Size ≤ m + 1
      · rw [if_pos hc] at h
        cases hb : byteTake cs (m + 1 - c.utf8Size) with
        | none => rw [hb] at h; simp at h
        | some q =>
          rw [hb] at h
          simp only [Option.map_some', Option.some.injEq] at h
          subst h
          have hq := ih (m + 1 - c.utf8Size) q hb
          constructor
          · simp only [utf8LenL, hq.1]
            omega
          · exact (List.cons_prefix_cons).mpr ⟨rfl, hq.2⟩
      · rw [if_neg hc] at h
        simp at h

/-! ### Claim C1 (corrected)

The claim says an errors list that is *present but empty* lets processing
continue to `data`.  The code's `if let Some(errors)` (main.rs line 96) fires
on `Some(vec![])` as well: it prints the "GraphQL Errors:" header and returns
before `data` is touched. -/

/-- C1 counterexample: with `errors: []` next to a perfectly decodable
non-null package, the run prints only the errors header and writes nothing,
even though processing the `data` object (second conjunct) would have written
`response.json` — so an empty `errors` list does not let the `package` field
be looked up and processed, contradicting the claim. -/
theorem c1_cex :
    query_sui_package "0x1" (.response ⟨200, none, some c1Body⟩) "ts"
        = ⟨[Line.graphqlErrorsHeader], none, .ok⟩ ∧
    (handleData "0x1" "ts" c1Data).written = some (responseEnvelope "0x1" "ts" c1Data) :=
  ⟨rfl, rfl⟩

/-- C1 (amended): if the decoded response's `errors` list is present — empty
or not — the header and each error message are printed exactly once, in the
order received, nothing is written, and the operation ends Ok without any
package summary; only when `errors` is absent does processing continue, and
then a present `data` has its `package` field looked up and processed
(`handleData`). -/
theorem c1_errors_short_circuit (package_address now : String) (st : Nat)
    (t : Option String) (bj : Json) (g : GraphQLResponse)
    (hst : statusIsSuccess st = true)
    (hdec : decodeGraphQLResponse bj = some g) :
    (∀ errs, g.errors = some errs →
      query_sui_package package_address (.response ⟨st, t, some bj⟩) now =
        ⟨Line.graphqlErrorsHeader :: errs.map (fun e => Line.graphqlErrorMsg e.message),
         none, .ok⟩) ∧
    (g.errors = none → ∀ d, g.data = some d →
      query_sui_package package_address (.response ⟨st, t, some bj⟩) now =
        handleData package_address now d) := by
  constructor
  · intro errs herr
    simp [query_sui_package, hst, hdec, handleEnvelope, herr]
  · intro herr d hd
    simp [query_sui_package, hst, hdec, handleEnvelope, herr, hd]

/-- C1 witness: a one-error response prints the header and that single
message in order, and ends with no write. -/
theorem c1_witness :
    query_sui_package "0x1"
        (.response ⟨200, none,
          some (.obj [("errors", .arr [.obj [("message", .str "boom")]])])⟩) "ts"
      = ⟨[Line.graphqlErrorsHeader, Line.graphqlErrorMsg "boom"], none, .ok⟩ :=
  (c1_errors_short_circuit "0x1" "ts" 200 none
      (.obj [("errors", .arr [.obj [("message", .str "boom")]])])
      ⟨none, some [⟨"boom"⟩]⟩ rfl rfl).1 [⟨"boom"⟩] rfl

/-! ### Claim C2 (corrected)

The claim says a decoded package with zero version nodes yields "No package
versions found" and no empty header.  The code prints that message only when
`packageVersions` is `None` (main.rs line 165); a present collection with an
empty `nodes` list prints the header "=== Package Versions (0 found) ==="
(line 132) and no such message. -/

/-- C2 counterexample: a response whose package decodes with
`packageVersions.nodes = []` (zero version nodes) prints the empty list
header `versionsHeader 0` and never prints "No package versions found",
contradicting the claim. -/
theorem c2_cex :
    (query_sui_package "0x1" (.response ⟨200, none, some c2Body⟩) "ts").lines
        = [Line.packageInfoHeader, Line.packageAddress "0x1", Line.currentVersion 1,
           Line.versionsHeader 0] ∧
    Line.noVersionsFound ∉
      (query_sui_package "0x1" (.response ⟨200, none, some c2Body⟩) "ts").lines :=
  ⟨rfl, by decide⟩

/-- C2 (amended): for a successfully decoded package record, "No package
versions found" is printed exactly when the `packageVersions` collection is
absent; when the collection is present with an empty node list the program
instead prints the version-list header with count 0. -/
theorem c2_empty_versions (p : PackageData) :
    (p.package_versions = none →
      printPackage p = ([.packageInfoHeader, .packageAddress p.address,
        .currentVersion p.version, .noVersionsFound], false)) ∧
    (p.package_versions = some ⟨[]⟩ →
      printPackage p = ([.packageInfoHeader, .packageAddress p.address,
        .currentVersion p.version, .versionsHeader 0], false)) := by
  constructor <;> intro h <;> simp [printPackage, h, processNodes]

/-- C2 witness: evaluated on a concrete record each way. -/
theorem c2_witness :
    printPackage ⟨"0x1", 7, none⟩
      = ([.packageInfoHeader, .packageAddress "0x1", .currentVersion 7,
          .noVersionsFound], false) ∧
    printPackage ⟨"0x1", 7, some ⟨[]⟩⟩
      = ([.packageInfoHeader, .packageAddress "0x1", .currentVersion 7,
          .versionsHeader 0], false) :=
  ⟨(c2_empty_versions ⟨"0x1", 7, none⟩).1 rfl,
   (c2_empty_versions ⟨"0x1", 7, some ⟨[]⟩⟩).2 rfl⟩

/-! ### Claim C3 (corrected)

The claim speaks of a length threshold of 100 and "the first 100 characters".
The code's threshold is `package_bcs.len()` — the UTF-8 *byte* length — and
`&package_bcs[..100]` takes the first 100 *bytes*, panicking when byte 100 is
not a character boundary.  `euro51` (51 characters, 153 bytes) refutes the
claim under either reading: by character count it should be printed in full,
by byte count a preview should follow, but the program prints only the length
line and panics. -/

/-- C3 counterexample: for the 51-character, 153-byte string `euro51` the
program prints the length line and then panics — neither the full string nor
any 100-character preview is printed. -/
theorem c3_cex :
    processBcs (some euro51) = ([Line.bcsLength 153], true) ∧
    utf8Len euro51 = 153 ∧ euro51.length = 51 :=
  ⟨rfl, rfl, rfl⟩

/-- C3 (amended): lengths are byte lengths.  If the package-BCS string's byte
length is at most 100 the full string is printed; if it exceeds 100 and byte
offset 100 is a character boundary, exactly the first 100 bytes are printed
followed by the ellipsis marker; otherwise the program panics right after the
length line. -/
theorem c3_bcs_preview (s : String) :
    (utf8Len s ≤ 100 →
      processBcs (some s) = ([.bcsLength (utf8Len s), .bcsFull s], false)) ∧
    (∀ p, 100 < utf8Len s → byteTake s.data 100 = some p →
      processBcs (some s)
          = ([.bcsLength (utf8Len s), .bcsPreview (String.mk p)], false) ∧
        utf8LenL p = 100 ∧ p <+: s.data) ∧
    (100 < utf8Len s → byteTake s.data 100 = none →
      processBcs (some s) = ([.bcsLength (utf8Len s)], true)) := by
  refine ⟨fun hle => ?_, fun p hgt hp => ?_, fun hgt hp => ?_⟩
  · have : ¬ utf8Len s > 100 := by omega
    simp [processBcs, this]
  · refine ⟨?_, byteTake_spec s.data 100 p hp⟩
    simp [processBcs, hgt, hp]
  · simp [processBcs, hgt, hp]

/-- C3 witness: a 150-byte ASCII string gets exactly its first 100 bytes as
preview, and a 3-byte string is printed in full. -/
theorem c3_witness :
    processBcs (some (String.mk (List.replicate 150 'a')))
        = ([.bcsLength (utf8Len (String.mk (List.replicate 150 'a'))),
            .bcsPreview (String.mk (List.replicate 100 'a'))], false) ∧
    processBcs (some "abc")
        = ([.bcsLength (utf8Len "abc"), .bcsFull "abc"], false) :=
  ⟨((c3_bcs_preview (String.mk (List.replicate 150 'a'))).2.1
      (List.replicate 100 'a') (by decide) (by decide)).1,
   (c3_bcs_preview "abc").1 (by decide)⟩

/-! ### Claim C4 (corrected)

The claim says every module string gets both its length and a first-50
preview printed.  The code (main.rs lines 153-158) prints the length always
but the preview only when `module.len() > 50`. -/

/-- C4 counterexample: the 2-byte module string "ab" gets only its length
line — no preview of any kind is printed for it. -/
theorem c4_cex :
    processModules (some ["ab"])
        = ([Line.moduleCount 1, Line.moduleLength 1 2], false) :=
  rfl

/-- C4 (amended): for each module string the program always prints its byte
length; a preview — of exactly the first 50 bytes, with an ellipsis — is
printed only when the byte length exceeds 50 and byte offset 50 is a
character boundary; when it exceeds 50 and offset 50 is not a boundary the
program panics right after the length line. -/
theorem c4_module_preview (j : Nat) (m : String) (ms : List String) :
    (utf8Len m ≤ 50 →
      processModuleList j (m :: ms)
          = (.moduleLength j (utf8Len m) :: (processModuleList (j + 1) ms).1,
             (processModuleList (j + 1) ms).2)) ∧
    (∀ p, 50 < utf8Len m → byteTake m.data 50 = some p →
      processModuleList j (m :: ms)
          = (.moduleLength j (utf8Len m) :: .modulePreview (String.mk p)
              :: (processModuleList (j + 1) ms).1,
             (processModuleList (j + 1) ms).2) ∧
        utf8LenL p = 50 ∧ p <+: m.data) ∧
    (50 < utf8Len m → byteTake m.data 50 = none →
      processModuleList j (m :: ms) = ([.moduleLength j (utf8Len m)], true)) := by
  refine ⟨fun hle => ?_, fun p hgt hp => ?_, fun hgt hp => ?_⟩
  · have : ¬ utf8Len m > 50 := by omega
    simp [processModuleList, this]
  · refine ⟨?_, byteTake_spec m.data 50 p hp⟩
    simp [processModuleList, hgt, hp]
  · simp [processModuleList, hgt, hp]

/-- C4 witness: a 60-byte ASCII module gets length plus first-50-bytes
preview; the 2-byte module gets only its length line. -/
theorem c4_witness :
    processModuleList 1 [String.mk (List.replicate 60 'b')]
        = (.moduleLength 1 (utf8Len (String.mk (List.replicate 60 'b')))
            :: .modulePreview (String.mk (List.replicate 50 'b'))
            :: (processModuleList 2 []).1,
           (processModuleList 2 []).2) ∧
    processModuleList 1 ["ab"]
        = (.moduleLength 1 (utf8Len "ab") :: (processModuleList 2 []).1,
           (processModuleList 2 []).2) :=
  ⟨((c4_module_preview 1 (String.mk (List.replicate 60 'b')) []).2.1
      (List.replicate 50 'b') (by decide) (by decide)).1,
   (c4_module_preview 1 "ab" []).1 (by decide)⟩

/-! ### Claim C5 (confirmed) -/

/-- C5: on an HTTP response with status ≥ 400 (hence not a 2xx success),
`query_sui_package` prints the status and the response body text and returns
Ok; the whole run is exactly those two lines, with no envelope parsing, no
decode, no package report and no `response.json` write (`written = none`),
whatever the body's JSON would have held. -/
theorem c5_http_error (package_address now t : String) (st : Nat)
    (b : Option Json) (h : 400 ≤ st) :
    query_sui_package package_address (.response ⟨st, some t, b⟩) now
        = ⟨[Line.httpError st, Line.errorResponse t], none, .ok⟩ := by
  have hs : statusIsSuccess st = false := by
    simp only [statusIsSuccess, decide_eq_false_iff_not]
    omega
  simp [query_sui_package, hs]

/-- C5 witness: a 404 with body "not found" — even alongside a parseable
body holding a package — prints only the two diagnostic lines. -/
theorem c5_witness :
    query_sui_package "0x1"
        (.response ⟨404, some "not found", some panicBody⟩) "ts"
      = ⟨[Line.httpError 404, Line.errorResponse "not found"], none, .ok⟩ :=
  c5_http_error "0x1" "ts" "not found" 404 (some panicBody) (by decide)

/-! ### Claim C6 (confirmed)

`now` stands for `chrono::Utc::now().to_rfc3339()`, whose output the chrono
library guarantees to be RFC3339; the model treats it as an opaque input and
shows it is stored verbatim in `query.timestamp`. -/

/-- C6: whenever `data` holds a non-null `package` field, the run writes
`response.json` with the envelope `responseEnvelope package_address now data`
— an object with fields `status` ("success"), `query.package_address` (the
input address), `query.timestamp` (the `now` value), `query.endpoint` (the
fixed URL) and `data` (the raw data object).  No hypothesis constrains the
typed decode, so the write also happens when decoding subsequently fails. -/
theorem c6_response_file (package_address now : String) (st : Nat)
    (t : Option String) (bj d pkg : Json) (g : GraphQLResponse)
    (hst : statusIsSuccess st = true)
    (hdec : decodeGraphQLResponse bj = some g)
    (herr : g.errors = none) (hdata : g.data = some d)
    (hpkg : d.get? "package" = some pkg) (hnn : pkg.isNull = false) :
    (query_sui_package package_address (.response ⟨st, t, some bj⟩) now).written
        = some (responseEnvelope package_address now d) ∧
    (responseEnvelope package_address now d).get? "status"
        = some (.str "success") ∧
    ((responseEnvelope package_address now d).get? "query" >>=
        fun q => q.get? "package_address") = some (.str package_address) ∧
    ((responseEnvelope package_address now d).get? "query" >>=
        fun q => q.get? "timestamp") = some (.str now) ∧
    ((responseEnvelope package_address now d).get? "query" >>=
        fun q => q.get? "endpoint") = some (.str endpointUrl) ∧
    (responseEnvelope package_address now d).get? "data" = some d := by
  refine ⟨?_, rfl, rfl, rfl, rfl, rfl⟩
  simp only [query_sui_package, hst, if_true, hdec, handleEnvelope, herr, hdata]
  unfold handleData
  rw [hpkg]
  simp only [hnn, Bool.false_eq_true, if_false]
  cases decodePackageData pkg <;> simp

/-- C6 witness: a package object that fails the typed decode (no `address`
field) still gets the envelope written, with the address and timestamp
stored. -/
theorem c6_witness :
    (query_sui_package "0x9"
        (.response ⟨200, none,
          some (.obj [("data", .obj [("package", .obj [("oops", .num 0)])])])⟩)
        "2026-01-01T00:00:00+00:00").written
      = some (responseEnvelope "0x9" "2026-01-01T00:00:00+00:00"
          (.obj [("package", .obj [("oops", .num 0)])])) ∧
    ((responseEnvelope "0x9" "2026-01-01T00:00:00+00:00"
        (.obj [("package", .obj [("oops", .num 0)])])).get? "query" >>=
      fun q => q.get? "package_address") = some (.str "0x9") :=
  ⟨(c6_response_file "0x9" "2026-01-01T00:00:00+00:00" 200 none
      (.obj [("data", .obj [("package", .obj [("oops", .num 0)])])])
      (.obj [("package", .obj [("oops", .num 0)])])
      (.obj [("oops", .num 0)])
      ⟨some (.obj [("package", .obj [("oops", .num 0)])]), none⟩
      rfl rfl rfl rfl rfl rfl).1,
   (c6_response_file "0x9" "2026-01-01T00:00:00+00:00" 200 none
      (.obj [("data", .obj [("package", .obj [("oops", .num 0)])])])
      (.obj [("package", .obj [("oops", .num 0)])])
      (.obj [("oops", .num 0)])
      ⟨some (.obj [("package", .obj [("oops", .num 0)])]), none⟩
      rfl rfl rfl rfl rfl rfl).2.2.1⟩

/-! ### Claim C7 (confirmed) -/

/-- C7: when `data` is present and its `package` field is JSON null, the run
prints exactly the "Package not found" line and ends Ok — no typed decode
output, and `written = none`, so `response.json` is not touched on this
path. -/
theorem c7_null_package (package_address now : String) (st : Nat)
    (t : Option String) (bj d : Json) (g : GraphQLResponse)
    (hst : statusIsSuccess st = true)
    (hdec : decodeGraphQLResponse bj = some g)
    (herr : g.errors = none) (hdata : g.data = some d)
    (hpkg : d.get? "package" = some .null) :
    query_sui_package package_address (.response ⟨st, t, some bj⟩) now
        = ⟨[Line.packageNotFound package_address], none, .ok⟩ := by
  simp only [query_sui_package, hst, if_true, hdec, handleEnvelope, herr, hdata]
  unfold handleData
  rw [hpkg]
  simp [Json.isNull]

/-- C7 witness: a concrete `{"data": {"package": null}}` body. -/
theorem c7_witness :
    query_sui_package "0x2"
        (.response ⟨200, none,
          some (.obj [("data", .obj [("package", .null)])])⟩) "ts"
      = ⟨[Line.packageNotFound "0x2"], none, .ok⟩ :=
  c7_null_package "0x2" "ts" 200 none
    (.obj [("data", .obj [("package", .null)])])
    (.obj [("package", .null)])
    ⟨some (.obj [("package", .null)]), none⟩
    rfl rfl rfl rfl rfl

/-! ### Claim C8 (corrected)

The claim says the process always exits 0 regardless of outcome.  `main` does
return `Ok(())` for both results of `query_sui_package`, and all the failure
paths the claim enumerates print and return gracefully — but the byte-slice
panic (claim C10) aborts the process with the Rust panic status instead of
exiting 0, so "always" fails. -/

/-- C8 counterexample: on the `panicBody` response the process dies in the
preview slice and the exit status is 101, not 0 — refuting "always exits with
status 0 regardless of outcome". -/
theorem c8_cex :
    exitCode (mainRun (.response ⟨200, none, some panicBody⟩) "ts") = 101 ∧
    (mainRun (.response ⟨200, none, some panicBody⟩) "ts").result = .panic :=
  ⟨rfl, rfl⟩

/-- C8 (amended): whenever `query_sui_package` returns — `Ok` or `Err`, which
covers every enumerated failure path (network/transport failure, non-success
HTTP status, GraphQL errors, missing package data, typed-decode failure) —
`main` appends one final diagnostic line, returns `Ok`, and the process exits
0; only the byte-slice panic path escapes this. -/
theorem c8_exit_status (h : HttpOutcome) (now : String) :
    ((query_sui_package theAddress h now).result = .ok →
      mainRun h now
        = ⟨.querying :: (query_sui_package theAddress h now).lines ++ [.queryCompleted],
           (query_sui_package theAddress h now).written, .ok⟩) ∧
    ((query_sui_package theAddress h now).result = .err →
      mainRun h now
        = ⟨.querying :: (query_sui_package theAddress h now).lines ++ [.errorOccurred],
           (query_sui_package theAddress h now).written, .ok⟩) ∧
    ((query_sui_package theAddress h now).result ≠ .panic →
      exitCode (mainRun h now) = 0) := by
  unfold mainRun mainWrap exitCode
  cases hq : (query_sui_package theAddress h now).result <;> simp [hq]

/-- C8 witness: a network send failure (an `Err` from `query_sui_package`)
still ends with `main` printing the error line and exiting 0. -/
theorem c8_witness :
    mainRun .sendFailure "ts"
        = ⟨.querying :: (query_sui_package theAddress .sendFailure "ts").lines
            ++ [.errorOccurred],
           (query_sui_package theAddress .sendFailure "ts").written, .ok⟩ :=
  (c8_exit_status .sendFailure "ts").2.1 rfl

/-! ### Claim C9 (confirmed) -/

/-- C9: every request is the fixed GraphQL document with a one-entry
variables map binding "address" to the input string; the document contains
the fixed page size `first: 50` and the `packageBcs` selection but nowhere
the string `moduleBcs` — so that field is never requested and the
module-printing path can only fire on a field the server was not asked for;
the hardcoded address `main` passes is non-empty. -/
theorem c9_request_shape (package_address : String) :
    (buildRequest package_address).query = packageQuery ∧
    (buildRequest package_address).variables = [("address", Json.str package_address)] ∧
    isSubstr "first: 50" packageQuery = true ∧
    isSubstr "packageBcs" packageQuery = true ∧
    isSubstr "moduleBcs" packageQuery = false ∧
    theAddress ≠ "" :=
  ⟨rfl, rfl, by decide, by decide, by decide, by decide⟩

/-! ### Claim C10 (confirmed) -/

/-- C10: the preview truncations slice at fixed byte offsets (100 for the
package-BCS string, 50 for a module string) and the printed lengths are UTF-8
byte lengths, not character counts (the one-character string "€" has length
3); when the offset byte falls inside a multi-byte character the slice is not
total: the program prints the length line and then panics — and a whole run
on the concrete `panicBody` response indeed ends in a panic. -/
theorem c10_byte_slicing :
    (∀ s : String, 100 < utf8Len s → byteTake s.data 100 = none →
        processBcs (some s) = ([Line.bcsLength (utf8Len s)], true)) ∧
    (∀ (j : Nat) (m : String) (ms : List String), 50 < utf8Len m →
        byteTake m.data 50 = none →
        processModuleList j (m :: ms) = ([Line.moduleLength j (utf8Len m)], true)) ∧
    utf8Len "€" = 3 ∧ ("€" : String).length = 1 ∧
    (query_sui_package "0x1" (.response ⟨200, none, some panicBody⟩) "ts").result
        = .panic :=
  ⟨fun s hgt hp => by simp [processBcs, hgt, hp],
   fun j m ms hgt hp => by simp [processModuleList, hgt, hp],
   rfl, rfl, rfl⟩

/-- C10 witness: the 102-byte string of 34 euro signs panics at byte offset
100 on the package-BCS path, and the 51-byte string of 17 euro signs panics
at byte offset 50 on the module path. -/
theorem c10_witness :
    processBcs (some euro34) = ([Line.bcsLength (utf8Len euro34)], true) ∧
    processModuleList 1 [String.mk (List.replicate 17 '€')]
        = ([Line.moduleLength 1 (utf8Len (String.mk (List.replicate 17 '€')))], true) :=
  ⟨c10_byte_slicing.1 euro34 (by decide) (by decide),
   c10_byte_slicing.2.1 1 (String.mk (List.replicate 17 '€')) []
     (by decide) (by decide)⟩

end PackageDiff
